import Mathlib

/-
Verification development for the sendparcel shipment orchestration core.

Shallow embedding of:
  src/sendparcel/enums.py       (ShipmentStatus)
  src/sendparcel/fsm.py         (guards, SHIPMENT_TRANSITIONS, STATUS_TO_CALLBACK,
                                 the machine attached by create_shipment_machine)
  src/sendparcel/exceptions.py  (domain error taxonomy)
  src/sendparcel/flow.py        (ShipmentFlow: _call_provider, _resolve_callback,
                                 _trigger, cancel_shipment, fetch_and_update_status)
  src/sendparcel/registry.py    (PluginRegistry)

The transition machinery itself lives in the third-party `transitions` library;
its behaviour as configured by create_shipment_machine (auto_transitions=False,
send_event=True, model_attribute="status", guards attached as `before`
callbacks that raise MachineError, invalid triggers raising MachineError before
any state change, may_trigger checking only source-state match) is pinned
exhaustively by the repository tests in tests/test_fsm.py and embedded here
accordingly.

Python exceptions are modelled as values of an error type; raising is modelled
with Except.  Because raising happens before any mutation at every modelled
raise site (guards run before the state change; flow raises before calling the
trigger; the registry raises before assignment), an `.error` result always
leaves the modelled state unchanged, matching the in-place Python semantics.
-/

deriving instance DecidableEq for Except

/-- Single quote character, used to build Python message strings faithfully. -/
def pySq : String := String.singleton (Char.ofNat 39)

/-- Python repr of a simple string (no embedded quotes or escapes). -/
def pyrepr (s : String) : String := pySq ++ s ++ pySq

/-- ShipmentStatus from enums.py, a StrEnum with 9 members. -/
inductive ShipmentStatus
  | NEW
  | CREATED
  | LABEL_READY
  | IN_TRANSIT
  | OUT_FOR_DELIVERY
  | DELIVERED
  | CANCELLED
  | FAILED
  | RETURNED
deriving DecidableEq, Repr

/-- String value of each ShipmentStatus member (enums.py). -/
def ShipmentStatus.value : ShipmentStatus → String
  | .NEW => "new"
  | .CREATED => "created"
  | .LABEL_READY => "label_ready"
  | .IN_TRANSIT => "in_transit"
  | .OUT_FOR_DELIVERY => "out_for_delivery"
  | .DELIVERED => "delivered"
  | .CANCELLED => "cancelled"
  | .FAILED => "failed"
  | .RETURNED => "returned"

/-- Python-side member name of each ShipmentStatus member. -/
def ShipmentStatus.pyName : ShipmentStatus → String
  | .NEW => "NEW"
  | .CREATED => "CREATED"
  | .LABEL_READY => "LABEL_READY"
  | .IN_TRANSIT => "IN_TRANSIT"
  | .OUT_FOR_DELIVERY => "OUT_FOR_DELIVERY"
  | .DELIVERED => "DELIVERED"
  | .CANCELLED => "CANCELLED"
  | .FAILED => "FAILED"
  | .RETURNED => "RETURNED"

/-- Python repr of a ShipmentStatus member (a StrEnum member). -/
def statusPyRepr (st : ShipmentStatus) : String :=
  "<ShipmentStatus." ++ st.pyName ++ ": " ++ pyrepr st.value ++ ">"

/-- Shipment record (protocols.py Shipment protocol): the fields the modelled
code reads or writes.  The core mutates fields in place; here mutation is
explicit record update. -/
structure Shipment where
  provider : String
  status : ShipmentStatus
  external_id : String
  tracking_number : String
  label_url : String
deriving DecidableEq, Repr

/-- Guard callbacks of fsm.py, attached as `before` callbacks of an edge. -/
inductive GuardFn
  | require_label_url
  | require_tracking_number
deriving DecidableEq, Repr

/-- Guard acceptance: fsm.py raises MachineError when the field is empty
(Python falsy for strings), so the guard passes exactly when it is non-empty. -/
def GuardFn.passes : GuardFn → Shipment → Bool
  | .require_label_url, s => !(s.label_url == "")
  | .require_tracking_number, s => !(s.tracking_number == "")

/-- Message of the MachineError a guard raises (f-strings in fsm.py). -/
def GuardFn.failMessage : GuardFn → String → String
  | .require_label_url, trigger =>
      "Transition " ++ pyrepr trigger ++ " requires label_url to be set."
  | .require_tracking_number, trigger =>
      "Transition " ++ pyrepr trigger ++ " requires tracking_number to be set."

/-- Transition edge as declared in fsm.py: trigger name, source states,
destination, optional `before` guard. -/
structure TransitionEdge where
  trigger : String
  source : List ShipmentStatus
  dest : ShipmentStatus
  before : Option GuardFn
deriving DecidableEq, Repr

/-- SHIPMENT_TRANSITIONS from fsm.py, in declaration order. -/
def SHIPMENT_TRANSITIONS : List TransitionEdge := [
  { trigger := "confirm_created",
    source := [ShipmentStatus.NEW],
    dest := ShipmentStatus.CREATED,
    before := none },
  { trigger := "confirm_label",
    source := [ShipmentStatus.CREATED],
    dest := ShipmentStatus.LABEL_READY,
    before := some GuardFn.require_label_url },
  { trigger := "mark_in_transit",
    source := [ShipmentStatus.CREATED, ShipmentStatus.LABEL_READY],
    dest := ShipmentStatus.IN_TRANSIT,
    before := some GuardFn.require_tracking_number },
  { trigger := "mark_out_for_delivery",
    source := [ShipmentStatus.IN_TRANSIT],
    dest := ShipmentStatus.OUT_FOR_DELIVERY,
    before := none },
  { trigger := "mark_delivered",
    source := [ShipmentStatus.IN_TRANSIT, ShipmentStatus.OUT_FOR_DELIVERY],
    dest := ShipmentStatus.DELIVERED,
    before := none },
  { trigger := "mark_returned",
    source := [ShipmentStatus.IN_TRANSIT, ShipmentStatus.OUT_FOR_DELIVERY,
               ShipmentStatus.DELIVERED],
    dest := ShipmentStatus.RETURNED,
    before := none },
  { trigger := "cancel",
    source := [ShipmentStatus.NEW, ShipmentStatus.CREATED,
               ShipmentStatus.LABEL_READY],
    dest := ShipmentStatus.CANCELLED,
    before := none },
  { trigger := "fail",
    source := [ShipmentStatus.NEW, ShipmentStatus.CREATED,
               ShipmentStatus.LABEL_READY, ShipmentStatus.IN_TRANSIT,
               ShipmentStatus.OUT_FOR_DELIVERY],
    dest := ShipmentStatus.FAILED,
    before := none }]

/-- CALLBACK_NAMES from fsm.py: the 8 declared trigger names. -/
def CALLBACK_NAMES : List String :=
  ["confirm_created", "confirm_label", "mark_in_transit",
   "mark_out_for_delivery", "mark_delivered", "mark_returned",
   "cancel", "fail"]

/-- STATUS_TO_CALLBACK from fsm.py: status value string to trigger name,
in declaration order (Python dict preserves insertion order).  NEW has no
entry. -/
def STATUS_TO_CALLBACK : List (String × String) := [
  (ShipmentStatus.CREATED.value, "confirm_created"),
  (ShipmentStatus.LABEL_READY.value, "confirm_label"),
  (ShipmentStatus.IN_TRANSIT.value, "mark_in_transit"),
  (ShipmentStatus.OUT_FOR_DELIVERY.value, "mark_out_for_delivery"),
  (ShipmentStatus.DELIVERED.value, "mark_delivered"),
  (ShipmentStatus.RETURNED.value, "mark_returned"),
  (ShipmentStatus.CANCELLED.value, "cancel"),
  (ShipmentStatus.FAILED.value, "fail")]

/-- Errors of the sendparcel domain taxonomy (exceptions.py), each carrying
its message data and context mapping. -/
inductive SPError
  | communication (message : String) (context : List (String × String))
  | invalidCallback (message : String) (context : List (String × String))
  | invalidTransition (message : String) (context : List (String × String))
  | shipmentNotFound (shipment_id : String) (context : List (String × String))
  | providerCapability (message : String) (context : List (String × String))
deriving DecidableEq, Repr

/-- Python exceptions appearing in the modelled code paths: the sendparcel
domain taxonomy, MachineError from the transitions library, the builtin
KeyError and ValueError, and arbitrary foreign exceptions (category name and
message). -/
inductive PyError
  | domain (e : SPError)
  | machineError (message : String)
  | keyError (key : String)
  | valueError (message : String)
  | foreign (typeName : String) (message : String)
deriving DecidableEq, Repr

/-- Python isinstance check against SendParcelException: only the errors of
the domain taxonomy are domain errors; MachineError, KeyError, ValueError and
foreign exceptions are not. -/
def PyError.isDomainError : PyError → Bool
  | .domain _ => true
  | _ => false

/-- Python type name of the error, used as the original_error context value. -/
def PyError.pyTypeName : PyError → String
  | .domain (.communication _ _) => "CommunicationError"
  | .domain (.invalidCallback _ _) => "InvalidCallbackError"
  | .domain (.invalidTransition _ _) => "InvalidTransitionError"
  | .domain (.shipmentNotFound _ _) => "ShipmentNotFoundError"
  | .domain (.providerCapability _ _) => "ProviderCapabilityError"
  | .machineError _ => "MachineError"
  | .keyError _ => "KeyError"
  | .valueError _ => "ValueError"
  | .foreign t _ => t

/-- Message of a domain error as passed to Exception, exceptions.py. -/
def SPError.message : SPError → String
  | .communication m _ => m
  | .invalidCallback m _ => m
  | .invalidTransition m _ => m
  | .shipmentNotFound sid _ => "Shipment " ++ sid ++ " not found"
  | .providerCapability m _ => m

/-- Python str of the error.  Note str of a KeyError is the repr of its key. -/
def PyError.str : PyError → String
  | .domain e => e.message
  | .machineError m => m
  | .keyError k => pyrepr k
  | .valueError m => m
  | .foreign _ m => m

/-- Message of the MachineError the transitions library raises when a trigger
does not apply from the current state (behaviour pinned by tests/test_fsm.py). -/
def cantTriggerMessage (t : String) (st : ShipmentStatus) : String :=
  "Can" ++ pySq ++ "t trigger event " ++ t ++ " from state " ++ st.pyName ++ "!"

/-- Execution of a trigger on the machine created by create_shipment_machine:
find the declared edge for this trigger whose sources include the current
status (auto_transitions=False, so only declared edges exist); if none, raise
MachineError before any state change; otherwise run the `before` guard, which
raises MachineError before any state change when it rejects; otherwise set the
status to the destination and touch no other field. -/
def triggerEvent (t : String) (s : Shipment) : Except PyError Shipment :=
  match SHIPMENT_TRANSITIONS.find?
      (fun e => e.trigger == t && e.source.contains s.status) with
  | none => .error (.machineError (cantTriggerMessage t s.status))
  | some e =>
    match e.before with
    | some g =>
      if g.passes s then .ok { s with status := e.dest }
      else .error (.machineError (g.failMessage t))
    | none => .ok { s with status := e.dest }

/-- The may_trigger query the transitions library attaches to the model:
true exactly when a declared edge for this trigger has the current status
among its sources.  Guards attached as `before` callbacks are not consulted
(behaviour pinned by tests/test_fsm.py). -/
def may_trigger (s : Shipment) (t : String) : Bool :=
  SHIPMENT_TRANSITIONS.any (fun e => e.trigger == t && e.source.contains s.status)

/-- Message of the InvalidTransitionError ShipmentFlow._trigger raises when
the looked-up attribute is missing or not callable. -/
def noTriggerMessage (callback : String) : String :=
  "Shipment has no callback trigger " ++ pyrepr callback

/-- Message of the InvalidTransitionError ShipmentFlow._trigger raises when
may_trigger rejects the callback from the current status. -/
def cannotExecuteMessage (callback : String) (st : ShipmentStatus) : String :=
  "Callback " ++ pyrepr callback ++ " cannot be executed from status " ++
    statusPyRepr st

/-- ShipmentFlow._trigger from flow.py: getattr lookup of the trigger method
(present exactly for the 8 machine trigger names), then the may_trigger gate
raising InvalidTransitionError, then the actual trigger call, whose
MachineError (if any) propagates unwrapped. -/
def ShipmentFlow.trigger (s : Shipment) (callback : String) :
    Except PyError Shipment :=
  if !(CALLBACK_NAMES.contains callback) then
    .error (.domain (.invalidTransition (noTriggerMessage callback) []))
  else if !(may_trigger s callback) then
    .error (.domain (.invalidTransition (cannotExecuteMessage callback s.status) []))
  else
    triggerEvent callback s

/-- ShipmentFlow._call_provider from flow.py: a raised SendParcelException
propagates unchanged; any other raised exception (the httpx.HTTPError branch
and the generic Exception branch have identical bodies) is wrapped into a
CommunicationError carrying str of the original and its category name under
the original_error context key. -/
def call_provider {α : Type} (outcome : Except PyError α) : Except PyError α :=
  match outcome with
  | .ok a => .ok a
  | .error e =>
    if e.isDomainError then .error e
    else .error (.domain (.communication e.str [("original_error", e.pyTypeName)]))

/-- Insertion of a string into a sorted list, ordered as Python sorted(). -/
def insertSorted (x : String) : List String → List String
  | [] => [x]
  | y :: rest => if x ≤ y then x :: y :: rest else y :: insertSorted x rest

/-- Insertion sort over strings, modelling Python sorted(). -/
def sortStrings : List String → List String
  | [] => []
  | x :: rest => insertSorted x (sortStrings rest)

/-- Python dict .get on a string-keyed mapping modelled as an ordered
association list. -/
def dictGet {α : Type} (k : String) : List (String × α) → Option α
  | [] => none
  | (k2, v) :: rest => if k2 == k then some v else dictGet k rest

/-- Message of the InvalidTransitionError ShipmentFlow._resolve_callback
raises on an unrecognized status value: sorted(STATUS_TO_CALLBACK) iterates
the keys in sorted order. -/
def unknownStatusMessage (v : String) : String :=
  "Unknown status value " ++ pyrepr v ++ ". Expected one of: " ++
    String.intercalate ", " (sortStrings (STATUS_TO_CALLBACK.map Prod.fst))

/-- ShipmentFlow._resolve_callback from flow.py: None maps to None; a value
found in STATUS_TO_CALLBACK maps to its trigger name (every stored value is a
non-empty string, hence truthy); any other value raises
InvalidTransitionError. -/
def ShipmentFlow.resolve_callback (status_value : Option String) :
    Except PyError (Option String) :=
  match status_value with
  | none => .ok none
  | some v =>
    match dictGet v STATUS_TO_CALLBACK with
    | some callback => .ok (some callback)
    | none => .error (.domain (.invalidTransition (unknownStatusMessage v) []))

/-- One provider instance as the flow sees it after _get_provider: which
optional capability traits the integration class implements, and the outcome
of each modelled integration coroutine (a value, or the exception it raises). -/
structure ProviderInstance where
  cancellable : Bool
  pull_status : Bool
  cancel_result : Except PyError Bool
  fetch_status_result : Except PyError (Option String)
deriving DecidableEq, Repr

/-- Outcome of one flow operation: the returned value or propagated exception,
the shipment object afterwards (in-place mutations included), and how many
times repository.save ran. -/
structure OpOutcome (α : Type) where
  result : Except PyError α
  shipment : Shipment
  saves : Nat
deriving DecidableEq, Repr

/-- ShipmentFlow.cancel_shipment from flow.py: capability gate, machine
attach (a no-op on the modelled status field), provider call through
_call_provider, then only a truthy result triggers cancel and persists. -/
def ShipmentFlow.cancel_shipment (p : ProviderInstance) (s : Shipment) :
    OpOutcome Bool :=
  if !p.cancellable then
    ⟨.error (.domain (.providerCapability
      ("Provider " ++ pyrepr s.provider ++ " does not support cancellation") [])),
     s, 0⟩
  else
    match call_provider p.cancel_result with
    | .error e => ⟨.error e, s, 0⟩
    | .ok cancelled =>
      if cancelled then
        match ShipmentFlow.trigger s "cancel" with
        | .error e => ⟨.error e, s, 0⟩
        | .ok s2 => ⟨.ok true, s2, 1⟩
      else ⟨.ok false, s, 0⟩

/-- ShipmentFlow.fetch_and_update_status from flow.py: capability gate,
machine attach, provider call through _call_provider, status resolution via
_resolve_callback, trigger when a callback was resolved, then an
unconditional save on the non-raising paths. -/
def ShipmentFlow.fetch_and_update_status (p : ProviderInstance) (s : Shipment) :
    OpOutcome Shipment :=
  if !p.pull_status then
    ⟨.error (.domain (.providerCapability
      ("Provider " ++ pyrepr s.provider ++ " does not support status polling") [])),
     s, 0⟩
  else
    match call_provider p.fetch_status_result with
    | .error e => ⟨.error e, s, 0⟩
    | .ok status_value =>
      match ShipmentFlow.resolve_callback status_value with
      | .error e => ⟨.error e, s, 0⟩
      | .ok none => ⟨.ok s, s, 1⟩
      | .ok (some callback) =>
        match ShipmentFlow.trigger s callback with
        | .error e => ⟨.error e, s, 0⟩
        | .ok s2 => ⟨.ok s2, s2, 1⟩

/-- Provider class object as the registry stores it (registry.py).  The
class_id field models Python object identity: distinct class objects have
distinct ids, so record equality models the `is` comparison in
_register_provider. -/
structure ProviderClass where
  class_id : Nat
  slug : String
  module : String
  class_name : String
deriving DecidableEq, Repr

/-- PluginRegistry state: the slug-keyed insertion-ordered mapping and the
lazy-discovery flag. -/
structure PluginRegistry where
  providers : List (String × ProviderClass)
  discovered : Bool
deriving DecidableEq, Repr

/-- Python dict assignment d[k] = v on an insertion-ordered mapping: replace
in place when the key exists, else append. -/
def dictInsert {α : Type} (k : String) (v : α) :
    List (String × α) → List (String × α)
  | [] => [(k, v)]
  | (k2, v2) :: rest =>
    if k2 == k then (k, v) :: rest else (k2, v2) :: dictInsert k v rest

/-- Message of the ValueError _register_provider raises on a duplicate slug. -/
def duplicateSlugMessage (slug : String) (existing pc : ProviderClass) : String :=
  "Duplicate provider slug " ++ pyrepr slug ++ ": " ++
    existing.module ++ "." ++ existing.class_name ++ " and " ++
    pc.module ++ "." ++ pc.class_name

/-- PluginRegistry._register_provider from registry.py: raise ValueError when
a different class already owns the slug (before any assignment), else assign. -/
def PluginRegistry.register_provider (reg : PluginRegistry)
    (pc : ProviderClass) : Except PyError PluginRegistry :=
  match dictGet pc.slug reg.providers with
  | some existing =>
    if existing = pc then
      .ok { reg with providers := dictInsert pc.slug pc reg.providers }
    else
      .error (.valueError (duplicateSlugMessage pc.slug existing pc))
  | none => .ok { reg with providers := dictInsert pc.slug pc reg.providers }

/-- PluginRegistry.register from registry.py delegates to _register_provider. -/
def PluginRegistry.register (reg : PluginRegistry) (pc : ProviderClass) :
    Except PyError PluginRegistry :=
  reg.register_provider pc

/-- Registration of a list of provider classes in order, stopping at the
first raised error. -/
def registerAll (reg : PluginRegistry) :
    List ProviderClass → Except PyError PluginRegistry
  | [] => .ok reg
  | pc :: rest =>
    match reg.register_provider pc with
    | .error e => .error e
    | .ok reg2 => registerAll reg2 rest

/-- PluginRegistry.discover from registry.py: register the builtin classes,
then the entry-point classes that pass the isinstance and issubclass filter
(entries failing the filter are skipped, so the eps argument here is the
already-filtered list), then set the discovered flag. -/
def PluginRegistry.discover (reg : PluginRegistry)
    (builtin eps : List ProviderClass) : Except PyError PluginRegistry :=
  match registerAll reg builtin with
  | .error e => .error e
  | .ok reg2 =>
    match registerAll reg2 eps with
    | .error e => .error e
    | .ok reg3 => .ok { reg3 with discovered := true }

/-- PluginRegistry._ensure_discovered from registry.py: run discovery at most
once per registry instance. -/
def PluginRegistry.ensure_discovered (reg : PluginRegistry)
    (builtin eps : List ProviderClass) : Except PyError PluginRegistry :=
  if reg.discovered then .ok reg else reg.discover builtin eps

/-- PluginRegistry.get_by_slug from registry.py: ensure discovery ran, then a
plain dict subscript, whose miss raises the builtin KeyError. -/
def PluginRegistry.get_by_slug (reg : PluginRegistry)
    (builtin eps : List ProviderClass) (slug : String) :
    Except PyError (ProviderClass × PluginRegistry) :=
  match reg.ensure_discovered builtin eps with
  | .error e => .error e
  | .ok reg2 =>
    match dictGet slug reg2.providers with
    | some pc => .ok (pc, reg2)
    | none => .error (.keyError slug)

/-- Helper: triggerEvent succeeds through a guarded matching edge. -/
theorem triggerEvent_matchGuard (t : String) (s : Shipment) (e : TransitionEdge)
    (g : GuardFn)
    (hfind : SHIPMENT_TRANSITIONS.find?
      (fun ed => ed.trigger == t && ed.source.contains s.status) = some e)
    (hb : e.before = some g) (hg : g.passes s = true) :
    triggerEvent t s = .ok { s with status := e.dest } := by
  unfold triggerEvent
  simp only [hfind, hb, hg, if_true]

/-- C1: for every declared transition edge, calling its trigger on a shipment
whose current status is one of the edge's source states and whose guard (if
any) is satisfied sets the shipment's status to the declared destination and
changes no other shipment field. -/
theorem trigger_matching_source_fires (e : TransitionEdge)
    (he : e ∈ SHIPMENT_TRANSITIONS) (s : Shipment)
    (hsrc : s.status ∈ e.source)
    (hguard : ∀ g, e.before = some g → g.passes s = true) :
    triggerEvent e.trigger s = .ok { s with status := e.dest } := by
  obtain ⟨pr, st, ex, tr, lb⟩ := s
  simp only [SHIPMENT_TRANSITIONS, List.mem_cons, List.not_mem_nil, or_false] at he
  rcases he with rfl | rfl | rfl | rfl | rfl | rfl | rfl | rfl <;> cases st <;>
    dsimp only at hsrc hguard ⊢ <;>
    first
      | exact absurd hsrc (by decide)
      | rfl
      | exact triggerEvent_matchGuard _ _
          ⟨"confirm_label", [ShipmentStatus.CREATED], ShipmentStatus.LABEL_READY,
           some GuardFn.require_label_url⟩ _ rfl rfl (hguard _ rfl)
      | exact triggerEvent_matchGuard _ _
          ⟨"mark_in_transit", [ShipmentStatus.CREATED, ShipmentStatus.LABEL_READY],
           ShipmentStatus.IN_TRANSIT, some GuardFn.require_tracking_number⟩ _
          rfl rfl (hguard _ rfl)

/-- Witness for C1 at a concrete guarded edge and shipment. -/
theorem trigger_matching_source_fires_witness :
    triggerEvent "confirm_label" ⟨"dummy", .CREATED, "", "", "u"⟩ =
      .ok ⟨"dummy", .LABEL_READY, "", "", "u"⟩ :=
  trigger_matching_source_fires
    ⟨"confirm_label", [ShipmentStatus.CREATED], ShipmentStatus.LABEL_READY,
     some GuardFn.require_label_url⟩
    (by decide) ⟨"dummy", .CREATED, "", "", "u"⟩ (by decide)
    (by intro g h; cases h; decide)

/-- C2: for every declared transition edge, calling its trigger on a shipment
whose current status is not among the edge's sources fails with a transition
error naming the trigger and the current status (the MachineError of the
machine itself, and the InvalidTransitionError of ShipmentFlow._trigger),
raised before any state change, so the status is unchanged. -/
theorem trigger_nonmatching_source_fails (e : TransitionEdge)
    (he : e ∈ SHIPMENT_TRANSITIONS) (s : Shipment)
    (hsrc : s.status ∉ e.source) :
    triggerEvent e.trigger s =
      .error (.machineError (cantTriggerMessage e.trigger s.status)) ∧
    ShipmentFlow.trigger s e.trigger =
      .error (.domain (.invalidTransition
        (cannotExecuteMessage e.trigger s.status) [])) := by
  obtain ⟨pr, st, ex, tr, lb⟩ := s
  simp only [SHIPMENT_TRANSITIONS, List.mem_cons, List.not_mem_nil, or_false] at he
  rcases he with rfl | rfl | rfl | rfl | rfl | rfl | rfl | rfl <;> cases st <;>
    dsimp only at hsrc ⊢ <;>
    first
      | exact absurd (by decide) hsrc
      | exact ⟨rfl, rfl⟩

/-- Witness for C2: confirm_created from DELIVERED. -/
theorem trigger_nonmatching_source_fails_witness :
    triggerEvent "confirm_created" ⟨"dummy", .DELIVERED, "", "", ""⟩ =
      .error (.machineError
        (cantTriggerMessage "confirm_created" ShipmentStatus.DELIVERED)) ∧
    ShipmentFlow.trigger ⟨"dummy", .DELIVERED, "", "", ""⟩ "confirm_created" =
      .error (.domain (.invalidTransition
        (cannotExecuteMessage "confirm_created" ShipmentStatus.DELIVERED) [])) :=
  trigger_nonmatching_source_fails
    ⟨"confirm_created", [ShipmentStatus.NEW], ShipmentStatus.CREATED, none⟩
    (by decide) ⟨"dummy", .DELIVERED, "", "", ""⟩ (by decide)

/-- C5: triggering confirm_label fails with a transition error (MachineError)
whenever label_url is empty, and triggering mark_in_transit fails whenever
tracking_number is empty, from every status, matching the edge's sources or
not. -/
theorem empty_guard_fields_block_triggers (s : Shipment) :
    (s.label_url = "" →
      ∃ m, triggerEvent "confirm_label" s = .error (.machineError m)) ∧
    (s.tracking_number = "" →
      ∃ m, triggerEvent "mark_in_transit" s = .error (.machineError m)) := by
  obtain ⟨pr, st, ex, tr, lb⟩ := s
  constructor <;> intro h <;> dsimp only at h <;> subst h <;> cases st <;>
    exact ⟨_, rfl⟩

/-- Witness for C5: confirm_label at CREATED with empty label_url. -/
theorem empty_guard_fields_block_triggers_witness :
    ∃ m, triggerEvent "confirm_label" ⟨"dummy", .CREATED, "", "T1", ""⟩ =
      .error (.machineError m) :=
  (empty_guard_fields_block_triggers ⟨"dummy", .CREATED, "", "T1", ""⟩).1 rfl

/-- C6: CANCELLED, FAILED and RETURNED have no outgoing edges, and every one
of the 8 declared triggers fails with a MachineError from them, the error
being raised before any state change. -/
theorem terminal_states_admit_no_trigger (s : Shipment) (t : String)
    (hst : s.status = .CANCELLED ∨ s.status = .FAILED ∨ s.status = .RETURNED)
    (ht : t ∈ CALLBACK_NAMES) :
    triggerEvent t s =
      .error (.machineError (cantTriggerMessage t s.status)) ∧
    (∀ e ∈ SHIPMENT_TRANSITIONS, s.status ∉ e.source) := by
  obtain ⟨pr, st, ex, tr, lb⟩ := s
  dsimp only at hst ⊢
  rcases hst with rfl | rfl | rfl <;>
    (simp only [CALLBACK_NAMES, List.mem_cons, List.not_mem_nil, or_false] at ht
     rcases ht with rfl | rfl | rfl | rfl | rfl | rfl | rfl | rfl <;>
       exact ⟨rfl, by decide⟩)

/-- Witness for C6: cancel from CANCELLED. -/
theorem terminal_states_admit_no_trigger_witness :
    triggerEvent "cancel" ⟨"dummy", .CANCELLED, "", "", ""⟩ =
      .error (.machineError
        (cantTriggerMessage "cancel" ShipmentStatus.CANCELLED)) ∧
    (∀ e ∈ SHIPMENT_TRANSITIONS, ShipmentStatus.CANCELLED ∉ e.source) :=
  terminal_states_admit_no_trigger ⟨"dummy", .CANCELLED, "", "", ""⟩ "cancel"
    (Or.inl rfl) (by decide)

/-- C3: for every error raised inside an integration call, _call_provider
wraps a non-domain error into a CommunicationError whose original_error
context equals the original error's category name, and lets a domain error
propagate identically, never double-wrapped; the cancel and fetch operations
surface exactly that translated error to the caller. -/
theorem provider_call_error_translation (e : PyError) (p : ProviderInstance)
    (s : Shipment) :
    (e.isDomainError = true →
      call_provider (Except.error e : Except PyError Bool) = .error e) ∧
    (e.isDomainError = false →
      call_provider (Except.error e : Except PyError Bool) =
        .error (.domain (.communication e.str
          [("original_error", e.pyTypeName)]))) ∧
    (p.cancellable = true → p.cancel_result = .error e →
      (ShipmentFlow.cancel_shipment p s).result = call_provider (.error e)) ∧
    (p.pull_status = true → p.fetch_status_result = .error e →
      (ShipmentFlow.fetch_and_update_status p s).result =
        call_provider (.error e)) := by
  obtain ⟨canc, pull, cres, fres⟩ := p
  refine ⟨?_, ?_, ?_, ?_⟩
  · intro h
    cases e <;>
      first
        | rfl
        | exact Bool.noConfusion (show false = true from h)
  · intro h
    cases e <;>
      first
        | rfl
        | exact Bool.noConfusion (show true = false from h)
  · intro hc hr
    dsimp only at hc hr
    subst hc
    subst hr
    cases e <;> rfl
  · intro hc hr
    dsimp only at hc hr
    subst hc
    subst hr
    cases e <;> rfl

/-- Witness for C3: a foreign RuntimeError is wrapped with its category name. -/
theorem provider_call_error_translation_witness :
    call_provider (Except.error (.foreign "RuntimeError" "boom") : Except PyError Bool) =
      .error (.domain (.communication "boom"
        [("original_error", "RuntimeError")])) :=
  (provider_call_error_translation (.foreign "RuntimeError" "boom")
    ⟨true, true, .error (.foreign "RuntimeError" "boom"),
     .error (.foreign "RuntimeError" "boom")⟩
    ⟨"dummy", .NEW, "", "", ""⟩).2.1 rfl

/-- Counterexample to C4 as stated: a DELIVERED shipment with a provider that
returns true is not moved to CANCELLED and is not persisted; the operation
raises instead (cancel has sources NEW, CREATED, LABEL_READY only). -/
theorem cancel_true_not_always_cancelled :
    (⟨true, false, .ok true, .ok none⟩ : ProviderInstance).cancellable = true ∧
    (⟨true, false, .ok true, .ok none⟩ : ProviderInstance).cancel_result = .ok true ∧
    ¬ ((ShipmentFlow.cancel_shipment ⟨true, false, .ok true, .ok none⟩
          ⟨"dummy", .DELIVERED, "E1", "T1", ""⟩).shipment.status =
        ShipmentStatus.CANCELLED ∧
       (ShipmentFlow.cancel_shipment ⟨true, false, .ok true, .ok none⟩
          ⟨"dummy", .DELIVERED, "E1", "T1", ""⟩).saves = 1) := by decide

/-- C4 amended: with the cancellation capability present, a false provider
result leaves the shipment untouched with no save; a true result moves the
shipment to CANCELLED and persists exactly once when the current status
admits the cancel edge (NEW, CREATED or LABEL_READY), and otherwise raises
an InvalidTransitionError with no state change and no save. -/
theorem cancel_shipment_behaviour (p : ProviderInstance) (s : Shipment)
    (hc : p.cancellable = true) :
    (p.cancel_result = .ok false →
      ShipmentFlow.cancel_shipment p s = ⟨.ok false, s, 0⟩) ∧
    (p.cancel_result = .ok true →
      s.status ∈ [ShipmentStatus.NEW, ShipmentStatus.CREATED,
                  ShipmentStatus.LABEL_READY] →
      ShipmentFlow.cancel_shipment p s =
        ⟨.ok true, { s with status := .CANCELLED }, 1⟩) ∧
    (p.cancel_result = .ok true →
      s.status ∉ [ShipmentStatus.NEW, ShipmentStatus.CREATED,
                  ShipmentStatus.LABEL_READY] →
      ShipmentFlow.cancel_shipment p s =
        ⟨.error (.domain (.invalidTransition
          (cannotExecuteMessage "cancel" s.status) [])), s, 0⟩) := by
  obtain ⟨canc, pull, cres, fres⟩ := p
  dsimp only at hc
  subst hc
  refine ⟨?_, ?_, ?_⟩
  · intro h
    dsimp only at h
    subst h
    rfl
  · intro h hsrc
    dsimp only at h
    subst h
    obtain ⟨pr, st, ex, tr, lb⟩ := s
    dsimp only at hsrc ⊢
    simp only [List.mem_cons, List.not_mem_nil, or_false] at hsrc
    rcases hsrc with rfl | rfl | rfl <;> rfl
  · intro h hsrc
    dsimp only at h
    subst h
    obtain ⟨pr, st, ex, tr, lb⟩ := s
    dsimp only at hsrc ⊢
    cases st <;>
      first
        | exact absurd (by decide) hsrc
        | rfl

/-- Witness for C4 amended: true result from CREATED cancels and saves once. -/
theorem cancel_shipment_behaviour_witness :
    ShipmentFlow.cancel_shipment ⟨true, false, .ok true, .ok none⟩
      ⟨"dummy", .CREATED, "", "", ""⟩ =
    ⟨.ok true, ⟨"dummy", .CANCELLED, "", "", ""⟩, 1⟩ :=
  (cancel_shipment_behaviour ⟨true, false, .ok true, .ok none⟩
    ⟨"dummy", .CREATED, "", "", ""⟩ rfl).2.1 rfl (by decide)

/-- C7: a status value equal to a raw trigger name is rejected by
fetch_and_update_status with the unrecognized-status InvalidTransitionError,
with no trigger executed, no state change and no save; and the trigger
selection table is exactly the fixed 8-entry mapping with no entry for the
value of NEW. -/
theorem raw_trigger_name_rejected_as_status (p : ProviderInstance)
    (s : Shipment) (t : String)
    (hp : p.pull_status = true) (ht : t ∈ CALLBACK_NAMES)
    (hr : p.fetch_status_result = .ok (some t)) :
    ShipmentFlow.fetch_and_update_status p s =
      ⟨.error (.domain (.invalidTransition (unknownStatusMessage t) [])),
       s, 0⟩ ∧
    dictGet ShipmentStatus.NEW.value STATUS_TO_CALLBACK = none ∧
    STATUS_TO_CALLBACK.length = 8 := by
  obtain ⟨canc, pull, cres, fres⟩ := p
  dsimp only at hp hr
  subst hp
  subst hr
  simp only [CALLBACK_NAMES, List.mem_cons, List.not_mem_nil, or_false] at ht
  rcases ht with rfl | rfl | rfl | rfl | rfl | rfl | rfl | rfl <;>
    exact ⟨rfl, rfl, rfl⟩

/-- Witness for C7: the raw trigger name cancel as a reported status. -/
theorem raw_trigger_name_rejected_as_status_witness :
    ShipmentFlow.fetch_and_update_status ⟨false, true, .ok false, .ok (some "cancel")⟩
      ⟨"dummy", .LABEL_READY, "", "", ""⟩ =
      ⟨.error (.domain (.invalidTransition (unknownStatusMessage "cancel") [])),
       ⟨"dummy", .LABEL_READY, "", "", ""⟩, 0⟩ ∧
    dictGet ShipmentStatus.NEW.value STATUS_TO_CALLBACK = none ∧
    STATUS_TO_CALLBACK.length = 8 :=
  raw_trigger_name_rejected_as_status
    ⟨false, true, .ok false, .ok (some "cancel")⟩
    ⟨"dummy", .LABEL_READY, "", "", ""⟩ "cancel" rfl (by decide) rfl

/-- C10: no entry of STATUS_TO_CALLBACK selects a trigger whose sources
include the status it is mapped from (no self-loop edges), and polling a
provider that reports the shipment's own current status value always raises
an InvalidTransitionError with no state change and no save. -/
theorem polling_own_status_never_noop (p : ProviderInstance) (s : Shipment) :
    (∀ kv ∈ STATUS_TO_CALLBACK, s.status.value = kv.fst →
      may_trigger s kv.snd = false) ∧
    (p.pull_status = true →
      p.fetch_status_result = .ok (some s.status.value) →
      ∃ m, ShipmentFlow.fetch_and_update_status p s =
        ⟨.error (.domain (.invalidTransition m [])), s, 0⟩) := by
  obtain ⟨canc, pull, cres, fres⟩ := p
  obtain ⟨pr, st, ex, tr, lb⟩ := s
  constructor
  · intro kv hkv hval
    simp only [STATUS_TO_CALLBACK, List.mem_cons, List.not_mem_nil, or_false] at hkv
    rcases hkv with rfl | rfl | rfl | rfl | rfl | rfl | rfl | rfl <;> cases st <;>
      dsimp only [ShipmentStatus.value] at hval ⊢ <;>
      first
        | exact absurd hval (by decide)
        | rfl
  · intro hp hr
    dsimp only at hp hr
    subst hp
    subst hr
    cases st <;> exact ⟨_, rfl⟩

/-- Witness for C10: polling an IN_TRANSIT shipment that the provider still
reports as in_transit raises and does not save. -/
theorem polling_own_status_never_noop_witness :
    ∃ m, ShipmentFlow.fetch_and_update_status
        ⟨false, true, .ok false, .ok (some "in_transit")⟩
        ⟨"dummy", .IN_TRANSIT, "", "", ""⟩ =
      ⟨.error (.domain (.invalidTransition m [])),
       ⟨"dummy", .IN_TRANSIT, "", "", ""⟩, 0⟩ :=
  (polling_own_status_never_noop
    ⟨false, true, .ok false, .ok (some "in_transit")⟩
    ⟨"dummy", .IN_TRANSIT, "", "", ""⟩).2 rfl rfl

/-- Helper: assigning a key its already-stored value leaves the mapping
unchanged. -/
theorem dictInsert_self {α : Type} (k : String) (v : α) :
    ∀ l : List (String × α), dictGet k l = some v → dictInsert k v l = l := by
  intro l
  induction l with
  | nil => intro h; exact Option.noConfusion h
  | cons kv rest ih =>
    obtain ⟨k2, v2⟩ := kv
    intro h
    simp only [dictGet] at h
    simp only [dictInsert]
    by_cases hk : (k2 == k) = true
    · rw [if_pos hk] at h ⊢
      obtain rfl := Option.some.inj h
      obtain rfl : k2 = k := eq_of_beq hk
      rfl
    · rw [if_neg hk] at h ⊢
      rw [ih h]

/-- C8: registering a different provider class under an already-used slug
raises the duplicate-slug ValueError before any assignment, so the mapping
for that slug is unchanged; re-registering the identical class succeeds and
leaves the registry exactly as it was. -/
theorem duplicate_slug_registration (reg : PluginRegistry)
    (a b : ProviderClass)
    (hslug : b.slug = a.slug) (hne : b ≠ a)
    (hreg : dictGet a.slug reg.providers = some a) :
    reg.register b = .error (.valueError (duplicateSlugMessage b.slug a b)) ∧
    reg.register a = .ok reg := by
  constructor
  · have h1 : dictGet b.slug reg.providers = some a := by
      rw [hslug]; exact hreg
    unfold PluginRegistry.register PluginRegistry.register_provider
    simp only [h1]
    rw [if_neg (fun h => hne h.symm)]
  · unfold PluginRegistry.register PluginRegistry.register_provider
    simp only [hreg, if_true]
    rw [dictInsert_self _ _ _ hreg]

/-- Witness for C8 at two concrete classes sharing a slug. -/
theorem duplicate_slug_registration_witness :
    PluginRegistry.register ⟨[("a", ⟨0, "a", "m1", "ProviderA"⟩)], true⟩
      ⟨1, "a", "m2", "ProviderB"⟩ =
      .error (.valueError (duplicateSlugMessage "a"
        ⟨0, "a", "m1", "ProviderA"⟩ ⟨1, "a", "m2", "ProviderB"⟩)) ∧
    PluginRegistry.register ⟨[("a", ⟨0, "a", "m1", "ProviderA"⟩)], true⟩
      ⟨0, "a", "m1", "ProviderA"⟩ =
      .ok ⟨[("a", ⟨0, "a", "m1", "ProviderA"⟩)], true⟩ :=
  duplicate_slug_registration ⟨[("a", ⟨0, "a", "m1", "ProviderA"⟩)], true⟩
    ⟨0, "a", "m1", "ProviderA"⟩ ⟨1, "a", "m2", "ProviderB"⟩
    rfl (by decide) rfl

/-- Counterexample to C9 as stated: on a discovered registry that does not
know the slug, get_by_slug fails with the builtin KeyError of the dict
subscript, which is not a domain error of the taxonomy (isDomainError is
false), hence not the taxonomy's not-found error. -/
theorem get_by_slug_unknown_not_domain_error :
    PluginRegistry.get_by_slug ⟨[], true⟩ [] [] "missing" =
      .error (.keyError "missing") ∧
    (PyError.keyError "missing").isDomainError = false := by decide

/-- C9 amended: for every slug unknown after discovery has run, get_by_slug
fails with the builtin KeyError carrying the slug (a non-domain error), not
with a domain not-found error. -/
theorem get_by_slug_unknown_slug_fails (reg reg2 : PluginRegistry)
    (builtin eps : List ProviderClass) (slug : String)
    (hdisc : reg.ensure_discovered builtin eps = .ok reg2)
    (hmiss : dictGet slug reg2.providers = none) :
    reg.get_by_slug builtin eps slug = .error (.keyError slug) := by
  unfold PluginRegistry.get_by_slug
  simp only [hdisc, hmiss]

/-- Witness for C9 amended: an already-discovered registry with one entry. -/
theorem get_by_slug_unknown_slug_fails_witness :
    PluginRegistry.get_by_slug
      ⟨[("dummy", ⟨0, "dummy", "m", "DummyProvider"⟩)], true⟩ [] [] "unknown" =
      .error (.keyError "unknown") :=
  get_by_slug_unknown_slug_fails
    ⟨[("dummy", ⟨0, "dummy", "m", "DummyProvider"⟩)], true⟩
    ⟨[("dummy", ⟨0, "dummy", "m", "DummyProvider"⟩)], true⟩
    [] [] "unknown" rfl rfl
